import Mathlib

/-!
Shallow embedding of `examples/stm32l496g-discovery/client_rtos/src/main.c`
from the ESP_AT_Lib resource repository.

The application code consists of three event-driven pieces:

* `init_thread` — the bootstrap sequencer: `esp_init`, then
  `connect_to_preferred_access_point`, then `esp_conn_start`;
* `conn_callback_func` — the per-connection callback driving one TCP
  client connection (send fixed request on active, acknowledge received
  buffers, log closes);
* `esp_callback_func` — the global ESP stack callback (firmware
  lifecycle events).

The embedding makes the calls into the ESP library explicit as an
`Action` trace: each callback, given the event payload and the result
the transport returns for the one `esp_conn_send` call it may perform,
produces its `espr_t` return value together with the ordered list of
library calls and `printf` diagnostics it performs.
-/

namespace EspAtClient

/-- Result codes of the ESP library (`espr_t`).  `espOTHER` stands for
any further member of the C enumeration other than `espOK`/`espERR`. -/
inductive Espr
  | espOK
  | espERR
  | espOTHER (code : Nat)
deriving DecidableEq, Repr

/-- Event types (`esp_evt_type_t`) that `main.c` dispatches on; every
other member of the C enumeration is represented by `ESP_EVT_OTHER`. -/
inductive EspEvtType
  | ESP_EVT_CONN_ACTIVE
  | ESP_EVT_CONN_CLOSED
  | ESP_EVT_CONN_DATA_SENT
  | ESP_EVT_CONN_DATA_RECV
  | ESP_EVT_AT_VERSION_NOT_SUPPORTED
  | ESP_EVT_INIT_FINISH
  | ESP_EVT_RESET_FINISH
  | ESP_EVT_RESET
  | ESP_EVT_OTHER (code : Nat)
deriving DecidableEq, Repr

/-- A firmware version triple (`esp_sw_version_t`). -/
structure esp_sw_version_t where
  major : Nat
  minor : Nat
  patch : Nat
deriving DecidableEq, Repr

/-- A received-data buffer reference (`esp_pbuf_p`): an identity for the
buffer plus its total chain length in bytes. -/
structure esp_pbuf where
  id : Nat
  len : Nat
deriving DecidableEq, Repr

/-- Event payload (`esp_evt_t`), restricted to the fields `main.c`
reads through the accessor functions. `conn` is the result of
`esp_conn_get_from_evt` (`none` models a NULL handle). -/
structure esp_evt_t where
  evtType : EspEvtType
  conn : Option Nat
  closed_forced : Bool
  recv_buff : esp_pbuf
deriving DecidableEq, Repr

/-- Accessor `esp_evt_get_type`. -/
def esp_evt_get_type (evt : esp_evt_t) : EspEvtType :=
  evt.evtType

/-- Accessor `esp_conn_get_from_evt`. -/
def esp_conn_get_from_evt (evt : esp_evt_t) : Option Nat :=
  evt.conn

/-- Accessor `esp_evt_conn_closed_is_forced`. -/
def esp_evt_conn_closed_is_forced (evt : esp_evt_t) : Bool :=
  evt.closed_forced

/-- Accessor `esp_evt_conn_data_recv_get_buff`. -/
def esp_evt_conn_data_recv_get_buff (evt : esp_evt_t) : esp_pbuf :=
  evt.recv_buff

/-- Accessor `esp_pbuf_length p tot`: the length of the buffer (the
second argument selects whole-chain length; the model keeps the total). -/
def esp_pbuf_length (p : esp_pbuf) (_tot : Bool) : Nat :=
  p.len

/-- The text of the fixed HTTP request from `main.c`. -/
def req_data_text : String :=
  "GET / HTTP/1.1\r\nHost: example.com\r\nConnection: close\r\n\r\n"

/-- The byte contents of the C array `req_data`: the characters of the
string literal followed by the terminating NUL that `sizeof` counts. -/
def req_data : List Nat :=
  (req_data_text.toList.map Char.toNat) ++ [0]

/-- One observable call the application code performs: a request into
the ESP library or a `printf` diagnostic, in program order. -/
inductive Action
  | esp_conn_send (conn : Nat) (data : List Nat) (btw : Nat)
  | esp_conn_close (conn : Nat)
  | esp_conn_recved (conn : Nat) (pbuf : esp_pbuf)
  | esp_get_min_at_fw_version
  | esp_get_current_at_fw_version
  | esp_init
  | connect_to_preferred_access_point
  | esp_conn_start (host : String) (port : Nat)
  | printf (msg : String)
deriving DecidableEq, Repr

/-- Body of `conn_callback_func`, parameterized by the byte contents
`buf` of the memory holding `req_data` (so that mutation of that memory
can be discussed) and by `send_res`, the value the transport returns
for the `esp_conn_send` call in the `ESP_EVT_CONN_ACTIVE` branch. -/
def conn_callback_core (buf : List Nat) (send_res : Espr) (evt : esp_evt_t) :
    Espr × List Action :=
  match esp_conn_get_from_evt evt with
  | none => (Espr.espERR, [])
  | some conn =>
    match esp_evt_get_type evt with
    | EspEvtType.ESP_EVT_CONN_ACTIVE =>
      let acts :=
        [Action.printf "Connection active!\r\n",
         Action.esp_conn_send conn buf (buf.length - 1)]
      if send_res = Espr.espOK then
        (Espr.espOK, acts ++ [Action.printf "Sending request data to server...\r\n"])
      else
        (Espr.espOK, acts ++
          [Action.printf "Cannot send request data to server. Closing connection manually...\r\n",
           Action.esp_conn_close conn])
    | EspEvtType.ESP_EVT_CONN_CLOSED =>
      if esp_evt_conn_closed_is_forced evt then
        (Espr.espOK, [Action.printf "Connection closed by client!\r\n"])
      else
        (Espr.espOK, [Action.printf "Connection closed by remote side!\r\n"])
    | EspEvtType.ESP_EVT_CONN_DATA_SENT =>
      (Espr.espOK,
        [Action.printf "Data sent successfully...waiting to receive data from remote side...\r\n"])
    | EspEvtType.ESP_EVT_CONN_DATA_RECV =>
      let pbuf := esp_evt_conn_data_recv_get_buff evt
      (Espr.espOK,
        [Action.esp_conn_recved conn pbuf,
         Action.printf ("Received " ++ toString (esp_pbuf_length pbuf true) ++
                        " bytes on connection..\r\n")])
    | _ => (Espr.espOK, [])

/-- `conn_callback_func` as compiled: the buffer it sends is the
program's `req_data` array. -/
def conn_callback_func (send_res : Espr) (evt : esp_evt_t) : Espr × List Action :=
  conn_callback_core req_data send_res evt

/-- `esp_callback_func`, parameterized by the version triples that
`esp_get_min_at_fw_version` and `esp_get_current_at_fw_version` write
into the locals `v_min` and `v_curr`. -/
def esp_callback_func (v_min v_curr : esp_sw_version_t) (evt : esp_evt_t) :
    Espr × List Action :=
  match esp_evt_get_type evt with
  | EspEvtType.ESP_EVT_AT_VERSION_NOT_SUPPORTED =>
    (Espr.espOK,
      [Action.esp_get_min_at_fw_version,
       Action.esp_get_current_at_fw_version,
       Action.printf "Current ESP8266 AT version is not supported by library!\r\n",
       Action.printf ("Minimum required AT version is: " ++ toString v_min.major ++
                      "." ++ toString v_min.minor ++ "." ++ toString v_min.patch ++ "\r\n"),
       Action.printf ("Current AT version is: " ++ toString v_curr.major ++
                      "." ++ toString v_curr.minor ++ "." ++ toString v_curr.patch ++ "\r\n")])
  | EspEvtType.ESP_EVT_INIT_FINISH =>
    (Espr.espOK, [Action.printf "Library initialized!\r\n"])
  | EspEvtType.ESP_EVT_RESET_FINISH =>
    (Espr.espOK, [Action.printf "Device reset sequence finished!\r\n"])
  | EspEvtType.ESP_EVT_RESET =>
    (Espr.espOK, [Action.printf "Device reset detected!\r\n"])
  | _ => (Espr.espOK, [])

/-- `init_thread`, parameterized by the results the library returns for
`esp_init` and `esp_conn_start`.  The trace lists, in program order,
the calls and diagnostics the thread performs before terminating. -/
def init_thread (init_res conn_start_res : Espr) : List Action :=
  [Action.esp_init] ++
  (if init_res = Espr.espOK then []
   else [Action.printf "Cannot initialize ESP-AT Library\r\n"]) ++
  [Action.connect_to_preferred_access_point,
   Action.esp_conn_start "example.com" 80] ++
  (if conn_start_res = Espr.espOK then
    [Action.printf "Connection to example.com started...\r\n"]
   else
    [Action.printf "Cannot start connection to example.com!\r\n"])

/-- One delivery to the connection callback: the event together with
the transport's answer to the send request, should the handler issue
one. -/
structure Step where
  evt : esp_evt_t
  send_res : Espr
deriving DecidableEq, Repr

/-- All actions performed by the connection callback over a sequence of
deliveries, in order. -/
def runConnTrace : List Step → List Action
  | [] => []
  | s :: rest => (conn_callback_func s.send_res s.evt).2 ++ runConnTrace rest

/-- The memory of the program relevant to the connection callback: the
byte contents of the array `req_data`. -/
structure MemState where
  req_buf : List Nat
deriving DecidableEq, Repr

/-- The connection callback with its memory made explicit: it reads
`req_buf` for the send and contains no store to it, so the memory it
returns is the one it was given. -/
def conn_callback_mem (st : MemState) (send_res : Espr) (evt : esp_evt_t) :
    MemState × Espr × List Action :=
  (st, conn_callback_core st.req_buf send_res evt)

/-- Running a delivery sequence while threading the memory state. -/
def runConnTraceMem (st : MemState) : List Step → MemState × List Action
  | [] => (st, [])
  | s :: rest =>
    let r := conn_callback_mem st s.send_res s.evt
    let rr := runConnTraceMem r.1 rest
    (rr.1, r.2.2 ++ rr.2)

/-- Does this action send on connection `c`? -/
def isSendOn (c : Nat) : Action → Bool
  | Action.esp_conn_send c' _ _ => c' = c
  | _ => false

/-- Does this action request close of connection `c`? -/
def isCloseOn (c : Nat) : Action → Bool
  | Action.esp_conn_close c' => c' = c
  | _ => false

/-- Is this action a send request (on any connection)? -/
def isSend : Action → Bool
  | Action.esp_conn_send _ _ _ => true
  | _ => false

/-- Is this action a close request (on any connection)? -/
def isClose : Action → Bool
  | Action.esp_conn_close _ => true
  | _ => false

/-- Is this action a receive acknowledgment (on any connection)? -/
def isRecved : Action → Bool
  | Action.esp_conn_recved _ _ => true
  | _ => false

/-- Is this action an acknowledgment of exactly the buffer `b`? -/
def isAckOf (b : esp_pbuf) : Action → Bool
  | Action.esp_conn_recved _ p => p = b
  | _ => false

/-- Is this action a request into the network stack (send, close,
receive-acknowledge, connection start, or access-point association)? -/
def isNetworkRequest : Action → Bool
  | Action.esp_conn_send _ _ _ => true
  | Action.esp_conn_close _ => true
  | Action.esp_conn_recved _ _ => true
  | Action.esp_conn_start _ _ => true
  | Action.connect_to_preferred_access_point => true
  | _ => false

/-- Is this action any operation on connection `c` (send, close or
receive-acknowledge with that handle)? -/
def isOpOn (c : Nat) : Action → Bool
  | Action.esp_conn_send c' _ _ => c' = c
  | Action.esp_conn_close c' => c' = c
  | Action.esp_conn_recved c' _ => c' = c
  | _ => false

/-- Is this delivery a connection-active event on handle `c`? -/
def isActiveOn (c : Nat) (s : Step) : Bool :=
  s.evt.conn = some c && s.evt.evtType = EspEvtType.ESP_EVT_CONN_ACTIVE

/-- Is this delivery a data-received event carrying buffer `b` (with an
extractable handle, so that the callback reaches the receive branch)? -/
def isRecvOf (b : esp_pbuf) (s : Step) : Bool :=
  s.evt.conn ≠ none && s.evt.evtType = EspEvtType.ESP_EVT_CONN_DATA_RECV &&
    s.evt.recv_buff = b

/-- The event sequence of the reference scenario: connection-active
(send accepted), data-sent confirmation, data-received of 37 bytes,
connection-closed by the remote side. -/
def scenario_trace : List Step :=
  [⟨⟨EspEvtType.ESP_EVT_CONN_ACTIVE, some 1, false, ⟨0, 0⟩⟩, Espr.espOK⟩,
   ⟨⟨EspEvtType.ESP_EVT_CONN_DATA_SENT, some 1, false, ⟨0, 0⟩⟩, Espr.espOK⟩,
   ⟨⟨EspEvtType.ESP_EVT_CONN_DATA_RECV, some 1, false, ⟨7, 37⟩⟩, Espr.espOK⟩,
   ⟨⟨EspEvtType.ESP_EVT_CONN_CLOSED, some 1, false, ⟨0, 0⟩⟩, Espr.espOK⟩]

/-- C9: if no connection handle can be extracted from the event the
connection callback returns `espERR` without performing any action; in
every other case it returns `espOK`. -/
theorem C9_conn_callback_null_guard (send_res : Espr) (evt : esp_evt_t) :
    (esp_conn_get_from_evt evt = none →
      conn_callback_func send_res evt = (Espr.espERR, [])) ∧
    (esp_conn_get_from_evt evt ≠ none →
      (conn_callback_func send_res evt).1 = Espr.espOK) := by
  obtain ⟨ty, conn, forced, buff⟩ := evt
  cases conn with
  | none =>
    exact ⟨fun _ => rfl, fun h => absurd rfl h⟩
  | some c =>
    refine ⟨fun h => by simp [esp_conn_get_from_evt] at h, fun _ => ?_⟩
    cases ty <;>
      simp only [conn_callback_func, conn_callback_core, esp_conn_get_from_evt,
        esp_evt_get_type, esp_evt_conn_closed_is_forced] <;>
      first
        | rfl
        | (split <;> rfl)

/-- C9 witness: concrete instances of both guard directions. -/
theorem C9_witness :
    conn_callback_func Espr.espOK
      ⟨EspEvtType.ESP_EVT_CONN_ACTIVE, none, false, ⟨0, 0⟩⟩ = (Espr.espERR, []) ∧
    (conn_callback_func Espr.espOK
      ⟨EspEvtType.ESP_EVT_CONN_ACTIVE, some 1, false, ⟨0, 0⟩⟩).1 = Espr.espOK :=
  ⟨(C9_conn_callback_null_guard Espr.espOK
      ⟨EspEvtType.ESP_EVT_CONN_ACTIVE, none, false, ⟨0, 0⟩⟩).1 rfl,
   (C9_conn_callback_null_guard Espr.espOK
      ⟨EspEvtType.ESP_EVT_CONN_ACTIVE, some 1, false, ⟨0, 0⟩⟩).2 (by decide)⟩

/-- C6 counterexample: an unrecognized-category event from which no
connection handle is extractable makes the connection callback return
`espERR`, not `espOK`, so the claim as stated fails. -/
theorem C6_counterexample :
    (conn_callback_func Espr.espOK
      ⟨EspEvtType.ESP_EVT_OTHER 99, none, false, ⟨0, 0⟩⟩).1 ≠ Espr.espOK := by
  decide

/-- C6 (amended): on an unrecognized event category the ESP stack
callback performs no action and returns `espOK`; the connection
callback likewise performs no action and returns `espOK` whenever a
connection handle is extractable from the event, and returns `espERR`
(still with no action) when none is. -/
theorem C6_unrecognized_noop (code : Nat) (evt : esp_evt_t) (send_res : Espr)
    (v_min v_curr : esp_sw_version_t)
    (h : esp_evt_get_type evt = EspEvtType.ESP_EVT_OTHER code) :
    esp_callback_func v_min v_curr evt = (Espr.espOK, []) ∧
    (∀ c, esp_conn_get_from_evt evt = some c →
      conn_callback_func send_res evt = (Espr.espOK, [])) ∧
    (esp_conn_get_from_evt evt = none →
      conn_callback_func send_res evt = (Espr.espERR, [])) := by
  obtain ⟨ty, conn, forced, buff⟩ := evt
  simp only [esp_evt_get_type] at h
  subst h
  cases conn with
  | none =>
    exact ⟨rfl, fun c hc => by simp [esp_conn_get_from_evt] at hc, fun _ => rfl⟩
  | some c0 =>
    exact ⟨rfl, fun c hc => rfl, fun hc => by simp [esp_conn_get_from_evt] at hc⟩

/-- C6 witness: both callbacks on a concrete unrecognized event with an
extractable handle. -/
theorem C6_witness :
    esp_callback_func ⟨2, 0, 0⟩ ⟨1, 5, 0⟩
      ⟨EspEvtType.ESP_EVT_OTHER 99, some 1, false, ⟨0, 0⟩⟩ = (Espr.espOK, []) ∧
    conn_callback_func Espr.espOK
      ⟨EspEvtType.ESP_EVT_OTHER 99, some 1, false, ⟨0, 0⟩⟩ = (Espr.espOK, []) := by
  have h := C6_unrecognized_noop 99
    ⟨EspEvtType.ESP_EVT_OTHER 99, some 1, false, ⟨0, 0⟩⟩
    Espr.espOK ⟨2, 0, 0⟩ ⟨1, 5, 0⟩ rfl
  exact ⟨h.1, h.2.1 1 rfl⟩

/-- C7: on a connection-closed event the handler chooses its diagnostic
by the forced/remote flag and issues no network request at all (in
particular no further operation on the handle): the output is a single
`printf`. -/
theorem C7_closed_terminal (send_res : Espr) (evt : esp_evt_t) (c : Nat)
    (hc : esp_conn_get_from_evt evt = some c)
    (ht : esp_evt_get_type evt = EspEvtType.ESP_EVT_CONN_CLOSED) :
    conn_callback_func send_res evt =
      (Espr.espOK,
       [Action.printf (if esp_evt_conn_closed_is_forced evt then
           "Connection closed by client!\r\n"
         else
           "Connection closed by remote side!\r\n")]) ∧
    ((conn_callback_func send_res evt).2).countP isNetworkRequest = 0 := by
  obtain ⟨ty, conn, forced, buff⟩ := evt
  simp only [esp_evt_get_type] at ht
  simp only [esp_conn_get_from_evt] at hc
  subst ht
  cases conn with
  | none => exact absurd hc (by simp)
  | some c0 =>
    cases forced <;>
      simp [conn_callback_func, conn_callback_core, esp_conn_get_from_evt,
        esp_evt_get_type, esp_evt_conn_closed_is_forced, isNetworkRequest,
        List.countP_cons]

/-- C7 witness: a concrete remote-initiated close and a concrete
locally-forced close. -/
theorem C7_witness :
    conn_callback_func Espr.espOK
      ⟨EspEvtType.ESP_EVT_CONN_CLOSED, some 1, false, ⟨0, 0⟩⟩ =
      (Espr.espOK, [Action.printf "Connection closed by remote side!\r\n"]) ∧
    conn_callback_func Espr.espOK
      ⟨EspEvtType.ESP_EVT_CONN_CLOSED, some 1, true, ⟨0, 0⟩⟩ =
      (Espr.espOK, [Action.printf "Connection closed by client!\r\n"]) :=
  ⟨(C7_closed_terminal Espr.espOK
      ⟨EspEvtType.ESP_EVT_CONN_CLOSED, some 1, false, ⟨0, 0⟩⟩ 1 rfl rfl).1,
   (C7_closed_terminal Espr.espOK
      ⟨EspEvtType.ESP_EVT_CONN_CLOSED, some 1, true, ⟨0, 0⟩⟩ 1 rfl rfl).1⟩

/-- C4: on an unsupported-AT-version event the dispatcher queries the
minimum-required and current version triples, reports them as
diagnostics, returns `espOK`, and its output contains no network
request whatsoever. -/
theorem C4_version_not_supported (v_min v_curr : esp_sw_version_t) (evt : esp_evt_t)
    (h : esp_evt_get_type evt = EspEvtType.ESP_EVT_AT_VERSION_NOT_SUPPORTED) :
    esp_callback_func v_min v_curr evt =
      (Espr.espOK,
       [Action.esp_get_min_at_fw_version,
        Action.esp_get_current_at_fw_version,
        Action.printf "Current ESP8266 AT version is not supported by library!\r\n",
        Action.printf ("Minimum required AT version is: " ++ toString v_min.major ++
          "." ++ toString v_min.minor ++ "." ++ toString v_min.patch ++ "\r\n"),
        Action.printf ("Current AT version is: " ++ toString v_curr.major ++
          "." ++ toString v_curr.minor ++ "." ++ toString v_curr.patch ++ "\r\n")]) ∧
    ((esp_callback_func v_min v_curr evt).2).countP isNetworkRequest = 0 := by
  obtain ⟨ty, conn, forced, buff⟩ := evt
  simp only [esp_evt_get_type] at h
  subst h
  exact ⟨rfl, rfl⟩

/-- C4 witness: the spec scenario with minimum version 2.0.0 and
current version 1.5.0. -/
theorem C4_witness :
    esp_callback_func ⟨2, 0, 0⟩ ⟨1, 5, 0⟩
      ⟨EspEvtType.ESP_EVT_AT_VERSION_NOT_SUPPORTED, none, false, ⟨0, 0⟩⟩ =
      (Espr.espOK,
       [Action.esp_get_min_at_fw_version,
        Action.esp_get_current_at_fw_version,
        Action.printf "Current ESP8266 AT version is not supported by library!\r\n",
        Action.printf "Minimum required AT version is: 2.0.0\r\n",
        Action.printf "Current AT version is: 1.5.0\r\n"]) :=
  (C4_version_not_supported ⟨2, 0, 0⟩ ⟨1, 5, 0⟩
    ⟨EspEvtType.ESP_EVT_AT_VERSION_NOT_SUPPORTED, none, false, ⟨0, 0⟩⟩ rfl).1

/-- C10: on a connection-active event the single send request carries
the `req_data` array with byte count `req_data.length - 1`
(`sizeof(req_data) - 1`), which is exactly the text of the HTTP request
without the terminating NUL. -/
theorem C10_send_length (send_res : Espr) (evt : esp_evt_t) (c : Nat)
    (hc : esp_conn_get_from_evt evt = some c)
    (ht : esp_evt_get_type evt = EspEvtType.ESP_EVT_CONN_ACTIVE) :
    ((conn_callback_func send_res evt).2).filter isSend =
      [Action.esp_conn_send c req_data (req_data.length - 1)] ∧
    req_data.length - 1 = req_data_text.length ∧
    req_data.take (req_data.length - 1) = req_data_text.toList.map Char.toNat ∧
    req_data.getLast? = some 0 := by
  obtain ⟨ty, conn, forced, buff⟩ := evt
  simp only [esp_evt_get_type] at ht
  simp only [esp_conn_get_from_evt] at hc
  subst ht
  cases conn with
  | none => exact absurd hc (by simp)
  | some c0 =>
    obtain rfl : c0 = c := by simpa using hc
    refine ⟨?_, by decide, by decide, by decide⟩
    by_cases hs : send_res = Espr.espOK <;>
      simp [conn_callback_func, conn_callback_core, esp_conn_get_from_evt,
        esp_evt_get_type, hs, isSend]

/-- C10 witness: a concrete connection-active delivery. -/
theorem C10_witness :
    ((conn_callback_func Espr.espOK
        ⟨EspEvtType.ESP_EVT_CONN_ACTIVE, some 1, false, ⟨0, 0⟩⟩).2).filter isSend =
      [Action.esp_conn_send 1 req_data (req_data.length - 1)] ∧
    req_data.length - 1 = req_data_text.length :=
  ⟨(C10_send_length Espr.espOK
      ⟨EspEvtType.ESP_EVT_CONN_ACTIVE, some 1, false, ⟨0, 0⟩⟩ 1 rfl rfl).1,
   (C10_send_length Espr.espOK
      ⟨EspEvtType.ESP_EVT_CONN_ACTIVE, some 1, false, ⟨0, 0⟩⟩ 1 rfl rfl).2.1⟩

/-- C5: over the scenario trace (active with send accepted, data-sent,
data-received of 37 bytes, closed by remote) the callback performs
exactly one send — of `req_data` with length `sizeof(req_data) - 1` —
exactly one receive-acknowledge of the received buffer, and no close
request. -/
theorem C5_scenario :
    (runConnTrace scenario_trace).filter isSend =
      [Action.esp_conn_send 1 req_data (req_data.length - 1)] ∧
    (runConnTrace scenario_trace).filter isRecved =
      [Action.esp_conn_recved 1 ⟨7, 37⟩] ∧
    (runConnTrace scenario_trace).filter isClose = [] := by
  decide

/-- C3 counterexample: with `esp_init` failing, the bootstrap sequence
still performs the access-point association and the connection start,
so the claim that the sequencer does not proceed fails. -/
theorem C3_counterexample :
    Action.printf "Cannot initialize ESP-AT Library\r\n" ∈
      init_thread Espr.espERR Espr.espOK ∧
    Action.connect_to_preferred_access_point ∈ init_thread Espr.espERR Espr.espOK ∧
    Action.esp_conn_start "example.com" 80 ∈ init_thread Espr.espERR Espr.espOK := by
  refine ⟨?_, ?_, ?_⟩ <;> simp [init_thread]

/-- C3 (amended): when `esp_init` fails the failure is reported, but
the sequencer nevertheless proceeds to access-point association and
connection start; its full trace is the failure diagnostic followed by
the two subsequent steps. -/
theorem C3_init_failure_proceeds (init_res conn_start_res : Espr)
    (h : init_res ≠ Espr.espOK) :
    init_thread init_res conn_start_res =
      [Action.esp_init,
       Action.printf "Cannot initialize ESP-AT Library\r\n",
       Action.connect_to_preferred_access_point,
       Action.esp_conn_start "example.com" 80] ++
      (if conn_start_res = Espr.espOK then
        [Action.printf "Connection to example.com started...\r\n"]
       else
        [Action.printf "Cannot start connection to example.com!\r\n"]) := by
  simp [init_thread, h]

/-- C3 witness: `esp_init` fails with `espERR`, `esp_conn_start`
succeeds. -/
theorem C3_witness :
    init_thread Espr.espERR Espr.espOK =
      [Action.esp_init,
       Action.printf "Cannot initialize ESP-AT Library\r\n",
       Action.connect_to_preferred_access_point,
       Action.esp_conn_start "example.com" 80] ++
      (if (Espr.espOK : Espr) = Espr.espOK then
        [Action.printf "Connection to example.com started...\r\n"]
       else
        [Action.printf "Cannot start connection to example.com!\r\n"]) :=
  C3_init_failure_proceeds Espr.espERR Espr.espOK (by decide)

/-- A delivery that is not a connection-active event on handle `c`
makes the callback perform no send and no close on `c`. -/
theorem conn_step_not_active_no_ops (c : Nat) (s : Step)
    (h : isActiveOn c s = false) :
    ((conn_callback_func s.send_res s.evt).2).countP (isSendOn c) = 0 ∧
    ((conn_callback_func s.send_res s.evt).2).countP (isCloseOn c) = 0 := by
  obtain ⟨⟨ty, conn, forced, buff⟩, sr⟩ := s
  cases conn with
  | none =>
    simp [conn_callback_func, conn_callback_core, esp_conn_get_from_evt]
  | some c0 =>
    cases ty with
    | ESP_EVT_CONN_ACTIVE =>
      have hne : c0 ≠ c := by simpa [isActiveOn] using h
      by_cases hs : sr = Espr.espOK <;>
        simp [conn_callback_func, conn_callback_core, esp_conn_get_from_evt,
          esp_evt_get_type, hs, List.countP_cons, isSendOn, isCloseOn, hne]
    | ESP_EVT_CONN_CLOSED =>
      cases forced <;>
        simp [conn_callback_func, conn_callback_core, esp_conn_get_from_evt,
          esp_evt_get_type, esp_evt_conn_closed_is_forced, List.countP_cons,
          isSendOn, isCloseOn]
    | ESP_EVT_CONN_DATA_RECV =>
      simp [conn_callback_func, conn_callback_core, esp_conn_get_from_evt,
        esp_evt_get_type, esp_evt_conn_data_recv_get_buff, List.countP_cons,
        isSendOn, isCloseOn]
    | ESP_EVT_CONN_DATA_SENT =>
      simp [conn_callback_func, conn_callback_core, esp_conn_get_from_evt,
        esp_evt_get_type, List.countP_cons, isSendOn, isCloseOn]
    | ESP_EVT_AT_VERSION_NOT_SUPPORTED =>
      simp [conn_callback_func, conn_callback_core, esp_conn_get_from_evt,
        esp_evt_get_type, List.countP_cons, isSendOn, isCloseOn]
    | ESP_EVT_INIT_FINISH =>
      simp [conn_callback_func, conn_callback_core, esp_conn_get_from_evt,
        esp_evt_get_type, List.countP_cons, isSendOn, isCloseOn]
    | ESP_EVT_RESET_FINISH =>
      simp [conn_callback_func, conn_callback_core, esp_conn_get_from_evt,
        esp_evt_get_type, List.countP_cons, isSendOn, isCloseOn]
    | ESP_EVT_RESET =>
      simp [conn_callback_func, conn_callback_core, esp_conn_get_from_evt,
        esp_evt_get_type, List.countP_cons, isSendOn, isCloseOn]
    | ESP_EVT_OTHER code =>
      simp [conn_callback_func, conn_callback_core, esp_conn_get_from_evt,
        esp_evt_get_type, List.countP_cons, isSendOn, isCloseOn]

/-- Over a delivery sequence with no connection-active event on `c`,
the callback performs no send and no close on `c`. -/
theorem runConnTrace_no_active_no_ops (c : Nat) (tr : List Step)
    (h : ∀ s ∈ tr, isActiveOn c s = false) :
    (runConnTrace tr).countP (isSendOn c) = 0 ∧
    (runConnTrace tr).countP (isCloseOn c) = 0 := by
  induction tr with
  | nil => simp [runConnTrace]
  | cons s rest ih =>
    have hs := conn_step_not_active_no_ops c s (h s (by simp))
    have hr := ih (fun s2 hs2 => h s2 (by simp [hs2]))
    simp [runConnTrace, List.countP_append, hs.1, hs.2, hr.1, hr.2]

/-- C1: when the send issued on a connection-active event is rejected,
the handling of that event is exactly: diagnostic, the one (rejected)
send attempt, diagnostic, one close request on that handle; and across
any continuation containing no further connection-active event on that
handle, no send and no close on it is ever issued again. -/
theorem C1_send_reject_close (s : Step) (c : Nat) (post : List Step)
    (hc : esp_conn_get_from_evt s.evt = some c)
    (ht : esp_evt_get_type s.evt = EspEvtType.ESP_EVT_CONN_ACTIVE)
    (hr : s.send_res ≠ Espr.espOK)
    (hpost : ∀ s2 ∈ post, isActiveOn c s2 = false) :
    (conn_callback_func s.send_res s.evt).2 =
      [Action.printf "Connection active!\r\n",
       Action.esp_conn_send c req_data (req_data.length - 1),
       Action.printf "Cannot send request data to server. Closing connection manually...\r\n",
       Action.esp_conn_close c] ∧
    ((conn_callback_func s.send_res s.evt).2).countP (isCloseOn c) = 1 ∧
    (runConnTrace post).countP (isSendOn c) = 0 ∧
    (runConnTrace post).countP (isCloseOn c) = 0 := by
  obtain ⟨⟨ty, conn, forced, buff⟩, sr⟩ := s
  simp only [esp_evt_get_type] at ht
  simp only [esp_conn_get_from_evt] at hc
  subst ht
  cases conn with
  | none => simp at hc
  | some c0 =>
    obtain rfl : c0 = c := by simpa using hc
    have h1 : (conn_callback_func sr
        ⟨EspEvtType.ESP_EVT_CONN_ACTIVE, some c0, forced, buff⟩).2 =
        [Action.printf "Connection active!\r\n",
         Action.esp_conn_send c0 req_data (req_data.length - 1),
         Action.printf "Cannot send request data to server. Closing connection manually...\r\n",
         Action.esp_conn_close c0] := by
      simp [conn_callback_func, conn_callback_core, esp_conn_get_from_evt,
        esp_evt_get_type, hr]
    have h2 := runConnTrace_no_active_no_ops c0 post hpost
    refine ⟨h1, ?_, h2.1, h2.2⟩
    rw [h1]
    simp [List.countP_cons, isCloseOn, isSendOn]

/-- C1 witness: a rejected send on a concrete active event, followed by
the closed event the close request elicits. -/
theorem C1_witness :
    (conn_callback_func Espr.espERR
        ⟨EspEvtType.ESP_EVT_CONN_ACTIVE, some 1, false, ⟨0, 0⟩⟩).2 =
      [Action.printf "Connection active!\r\n",
       Action.esp_conn_send 1 req_data (req_data.length - 1),
       Action.printf "Cannot send request data to server. Closing connection manually...\r\n",
       Action.esp_conn_close 1] ∧
    ((conn_callback_func Espr.espERR
        ⟨EspEvtType.ESP_EVT_CONN_ACTIVE, some 1, false, ⟨0, 0⟩⟩).2).countP (isCloseOn 1) = 1 ∧
    (runConnTrace
      [⟨⟨EspEvtType.ESP_EVT_CONN_CLOSED, some 1, true, ⟨0, 0⟩⟩, Espr.espOK⟩]).countP
      (isSendOn 1) = 0 ∧
    (runConnTrace
      [⟨⟨EspEvtType.ESP_EVT_CONN_CLOSED, some 1, true, ⟨0, 0⟩⟩, Espr.espOK⟩]).countP
      (isCloseOn 1) = 0 :=
  C1_send_reject_close
    ⟨⟨EspEvtType.ESP_EVT_CONN_ACTIVE, some 1, false, ⟨0, 0⟩⟩, Espr.espERR⟩ 1
    [⟨⟨EspEvtType.ESP_EVT_CONN_CLOSED, some 1, true, ⟨0, 0⟩⟩, Espr.espOK⟩]
    rfl rfl (by decide) (by decide)

/-- Each delivery contributes exactly one acknowledgment of buffer `b`
when it is a data-received event carrying `b` (with extractable
handle), and none otherwise. -/
theorem conn_step_ack_count (b : esp_pbuf) (s : Step) :
    ((conn_callback_func s.send_res s.evt).2).countP (isAckOf b) =
      (if isRecvOf b s then 1 else 0) := by
  obtain ⟨⟨ty, conn, forced, buff⟩, sr⟩ := s
  cases conn with
  | none =>
    simp [conn_callback_func, conn_callback_core, esp_conn_get_from_evt, isRecvOf]
  | some c0 =>
    cases ty with
    | ESP_EVT_CONN_ACTIVE =>
      by_cases hs : sr = Espr.espOK <;>
        simp [conn_callback_func, conn_callback_core, esp_conn_get_from_evt,
          esp_evt_get_type, hs, List.countP_cons, isAckOf, isRecvOf]
    | ESP_EVT_CONN_CLOSED =>
      cases forced <;>
        simp [conn_callback_func, conn_callback_core, esp_conn_get_from_evt,
          esp_evt_get_type, esp_evt_conn_closed_is_forced, List.countP_cons,
          isAckOf, isRecvOf]
    | ESP_EVT_CONN_DATA_RECV =>
      by_cases hb : buff = b <;>
        simp [conn_callback_func, conn_callback_core, esp_conn_get_from_evt,
          esp_evt_get_type, esp_evt_conn_data_recv_get_buff, List.countP_cons,
          isAckOf, isRecvOf, hb]
    | ESP_EVT_CONN_DATA_SENT =>
      simp [conn_callback_func, conn_callback_core, esp_conn_get_from_evt,
        esp_evt_get_type, List.countP_cons, isAckOf, isRecvOf]
    | ESP_EVT_AT_VERSION_NOT_SUPPORTED =>
      simp [conn_callback_func, conn_callback_core, esp_conn_get_from_evt,
        esp_evt_get_type, List.countP_cons, isAckOf, isRecvOf]
    | ESP_EVT_INIT_FINISH =>
      simp [conn_callback_func, conn_callback_core, esp_conn_get_from_evt,
        esp_evt_get_type, List.countP_cons, isAckOf, isRecvOf]
    | ESP_EVT_RESET_FINISH =>
      simp [conn_callback_func, conn_callback_core, esp_conn_get_from_evt,
        esp_evt_get_type, List.countP_cons, isAckOf, isRecvOf]
    | ESP_EVT_RESET =>
      simp [conn_callback_func, conn_callback_core, esp_conn_get_from_evt,
        esp_evt_get_type, List.countP_cons, isAckOf, isRecvOf]
    | ESP_EVT_OTHER code =>
      simp [conn_callback_func, conn_callback_core, esp_conn_get_from_evt,
        esp_evt_get_type, List.countP_cons, isAckOf, isRecvOf]

/-- C2: a data-received delivery with extractable handle performs
exactly one receive-acknowledge — of the event's own buffer, before
returning — and over any delivery sequence the number of
acknowledgments of a buffer equals the number of data-received events
that carried it: never more than once per received buffer, never for a
buffer not received. -/
theorem C2_ack_once_per_buffer (tr : List Step) (b : esp_pbuf)
    (s : Step) (c : Nat)
    (hc : esp_conn_get_from_evt s.evt = some c)
    (ht : esp_evt_get_type s.evt = EspEvtType.ESP_EVT_CONN_DATA_RECV) :
    (conn_callback_func s.send_res s.evt).2 =
      [Action.esp_conn_recved c (esp_evt_conn_data_recv_get_buff s.evt),
       Action.printf ("Received " ++
         toString (esp_pbuf_length (esp_evt_conn_data_recv_get_buff s.evt) true) ++
         " bytes on connection..\r\n")] ∧
    ((conn_callback_func s.send_res s.evt).2).countP isRecved = 1 ∧
    (runConnTrace tr).countP (isAckOf b) = tr.countP (isRecvOf b) := by
  refine ⟨?_, ?_, ?_⟩
  · obtain ⟨⟨ty, conn, forced, buff⟩, sr⟩ := s
    simp only [esp_evt_get_type] at ht
    simp only [esp_conn_get_from_evt] at hc
    subst ht
    cases conn with
    | none => simp at hc
    | some c0 =>
      obtain rfl : c0 = c := by simpa using hc
      simp [conn_callback_func, conn_callback_core, esp_conn_get_from_evt,
        esp_evt_get_type, esp_evt_conn_data_recv_get_buff]
  · obtain ⟨⟨ty, conn, forced, buff⟩, sr⟩ := s
    simp only [esp_evt_get_type] at ht
    simp only [esp_conn_get_from_evt] at hc
    subst ht
    cases conn with
    | none => simp at hc
    | some c0 =>
      simp [conn_callback_func, conn_callback_core, esp_conn_get_from_evt,
        esp_evt_get_type, esp_evt_conn_data_recv_get_buff, List.countP_cons,
        isRecved]
  · induction tr with
    | nil => simp [runConnTrace]
    | cons s2 rest ih =>
      rw [runConnTrace, List.countP_append, conn_step_ack_count, ih,
        List.countP_cons, Nat.add_comm]

/-- C2 witness: a trace receiving buffer 7 of 37 bytes once amid other
events, with the per-event and counting facts instantiated there. -/
theorem C2_witness :
    (conn_callback_func Espr.espOK
        ⟨EspEvtType.ESP_EVT_CONN_DATA_RECV, some 1, false, ⟨7, 37⟩⟩).2 =
      [Action.esp_conn_recved 1
         (esp_evt_conn_data_recv_get_buff
           ⟨EspEvtType.ESP_EVT_CONN_DATA_RECV, some 1, false, ⟨7, 37⟩⟩),
       Action.printf ("Received " ++
         toString (esp_pbuf_length
           (esp_evt_conn_data_recv_get_buff
             ⟨EspEvtType.ESP_EVT_CONN_DATA_RECV, some 1, false, ⟨7, 37⟩⟩) true) ++
         " bytes on connection..\r\n")] ∧
    ((conn_callback_func Espr.espOK
        ⟨EspEvtType.ESP_EVT_CONN_DATA_RECV, some 1, false, ⟨7, 37⟩⟩).2).countP isRecved = 1 ∧
    (runConnTrace
        [⟨⟨EspEvtType.ESP_EVT_CONN_ACTIVE, some 1, false, ⟨0, 0⟩⟩, Espr.espOK⟩,
         ⟨⟨EspEvtType.ESP_EVT_CONN_DATA_RECV, some 1, false, ⟨7, 37⟩⟩, Espr.espOK⟩,
         ⟨⟨EspEvtType.ESP_EVT_CONN_DATA_RECV, some 2, false, ⟨8, 5⟩⟩, Espr.espOK⟩]).countP
      (isAckOf ⟨7, 37⟩) =
      ([⟨⟨EspEvtType.ESP_EVT_CONN_ACTIVE, some 1, false, ⟨0, 0⟩⟩, Espr.espOK⟩,
        ⟨⟨EspEvtType.ESP_EVT_CONN_DATA_RECV, some 1, false, ⟨7, 37⟩⟩, Espr.espOK⟩,
        ⟨⟨EspEvtType.ESP_EVT_CONN_DATA_RECV, some 2, false, ⟨8, 5⟩⟩, Espr.espOK⟩] :
        List Step).countP (isRecvOf ⟨7, 37⟩) :=
  C2_ack_once_per_buffer
    [⟨⟨EspEvtType.ESP_EVT_CONN_ACTIVE, some 1, false, ⟨0, 0⟩⟩, Espr.espOK⟩,
     ⟨⟨EspEvtType.ESP_EVT_CONN_DATA_RECV, some 1, false, ⟨7, 37⟩⟩, Espr.espOK⟩,
     ⟨⟨EspEvtType.ESP_EVT_CONN_DATA_RECV, some 2, false, ⟨8, 5⟩⟩, Espr.espOK⟩]
    ⟨7, 37⟩
    ⟨⟨EspEvtType.ESP_EVT_CONN_DATA_RECV, some 1, false, ⟨7, 37⟩⟩, Espr.espOK⟩ 1
    rfl rfl

/-- Running any delivery sequence leaves the memory state unchanged:
the callback contains no store to the `req_data` array. -/
theorem runConnTraceMem_state (st : MemState) (tr : List Step) :
    (runConnTraceMem st tr).1 = st := by
  induction tr with
  | nil => rfl
  | cons s rest ih => simpa [runConnTraceMem, conn_callback_mem] using ih

/-- Every send the callback body performs carries exactly the bytes of
the buffer it was given. -/
theorem conn_callback_core_send_data (buf : List Nat) (r : Espr) (evt : esp_evt_t)
    (c : Nat) (d : List Nat) (n : Nat)
    (h : Action.esp_conn_send c d n ∈ (conn_callback_core buf r evt).2) :
    d = buf := by
  obtain ⟨ty, conn, forced, buff⟩ := evt
  cases conn with
  | none => simp [conn_callback_core, esp_conn_get_from_evt] at h
  | some c0 =>
    cases ty with
    | ESP_EVT_CONN_ACTIVE =>
      by_cases hr : r = Espr.espOK <;>
        simp [conn_callback_core, esp_conn_get_from_evt, esp_evt_get_type, hr] at h <;>
        exact h.2.1
    | ESP_EVT_CONN_CLOSED =>
      cases forced <;>
        simp [conn_callback_core, esp_conn_get_from_evt, esp_evt_get_type,
          esp_evt_conn_closed_is_forced] at h
    | ESP_EVT_CONN_DATA_RECV =>
      simp [conn_callback_core, esp_conn_get_from_evt, esp_evt_get_type,
        esp_evt_conn_data_recv_get_buff] at h
    | ESP_EVT_CONN_DATA_SENT =>
      simp [conn_callback_core, esp_conn_get_from_evt, esp_evt_get_type] at h
    | ESP_EVT_AT_VERSION_NOT_SUPPORTED =>
      simp [conn_callback_core, esp_conn_get_from_evt, esp_evt_get_type] at h
    | ESP_EVT_INIT_FINISH =>
      simp [conn_callback_core, esp_conn_get_from_evt, esp_evt_get_type] at h
    | ESP_EVT_RESET_FINISH =>
      simp [conn_callback_core, esp_conn_get_from_evt, esp_evt_get_type] at h
    | ESP_EVT_RESET =>
      simp [conn_callback_core, esp_conn_get_from_evt, esp_evt_get_type] at h
    | ESP_EVT_OTHER code =>
      simp [conn_callback_core, esp_conn_get_from_evt, esp_evt_get_type] at h

/-- Every send in a run from memory state `st` carries the bytes of
`st.req_buf`. -/
theorem runConnTraceMem_send_data (st : MemState) (tr : List Step)
    (c : Nat) (d : List Nat) (n : Nat)
    (h : Action.esp_conn_send c d n ∈ (runConnTraceMem st tr).2) :
    d = st.req_buf := by
  induction tr with
  | nil => simp [runConnTraceMem] at h
  | cons s rest ih =>
    simp only [runConnTraceMem, conn_callback_mem, List.mem_append] at h
    rcases h with h | h
    · exact conn_callback_core_send_data st.req_buf s.send_res s.evt c d n h
    · exact ih h

/-- C8: starting from the memory holding the bytes of `req_data`, no
delivery sequence changes those bytes, and every send request ever
issued carries exactly those bytes. -/
theorem C8_req_data_immutable (tr : List Step) :
    (runConnTraceMem ⟨req_data⟩ tr).1 = (⟨req_data⟩ : MemState) ∧
    ∀ c d n, Action.esp_conn_send c d n ∈ (runConnTraceMem ⟨req_data⟩ tr).2 →
      d = req_data :=
  ⟨runConnTraceMem_state ⟨req_data⟩ tr,
   fun c d n h => runConnTraceMem_send_data ⟨req_data⟩ tr c d n h⟩

/-- C8 witness: the concrete one-event run whose send carries the
request bytes. -/
theorem C8_witness :
    (runConnTraceMem ⟨req_data⟩
        [⟨⟨EspEvtType.ESP_EVT_CONN_ACTIVE, some 1, false, ⟨0, 0⟩⟩, Espr.espOK⟩]).1 =
      (⟨req_data⟩ : MemState) ∧
    req_data_text.toList.map Char.toNat ++ [0] = req_data :=
  ⟨(C8_req_data_immutable
      [⟨⟨EspEvtType.ESP_EVT_CONN_ACTIVE, some 1, false, ⟨0, 0⟩⟩, Espr.espOK⟩]).1,
   (C8_req_data_immutable
      [⟨⟨EspEvtType.ESP_EVT_CONN_ACTIVE, some 1, false, ⟨0, 0⟩⟩, Espr.espOK⟩]).2
     1 (req_data_text.toList.map Char.toNat ++ [0]) (req_data.length - 1) (by decide)⟩

end EspAtClient
